import Mathlib

/-!
Verification of the JustId user-id submodule (modules/justIdSystem.js).

The module resolves a user identifier by trying, in order:
an ATM capability probe (a page-global command dispatcher), then — on probe
failure — either an external script-injection provider (EXTERNAL mode) or a
cache-checked POST against an id server (otherwise).

This file shallowly embeds the module: JavaScript dynamic values are modelled
by an explicit value type with ECMAScript coercion for the operators the
source applies to them (notably `+` on a cookie string and a number, and the
relational `<`); the promise machinery that the probe timeout relies on is
modelled operationally by a settle-once state machine; all external effects
(cookie reads/writes, network POSTs, ATM commands, callback invocations) are
recorded in a trace.  JS numbers are modelled as exact integers (plus NaN);
all arithmetic in the module stays far below 2^53 except where a concrete
huge value is compared, where rounding to double cannot affect the result.
-/

namespace JustId

/-- An ECMAScript number: either NaN or an (exact) integer.  The module only
ever produces integer-valued numbers (epoch milliseconds, second counts). -/
inductive JSNum where
  | nan
  | int (n : Int)
deriving DecidableEq, Repr

/-- A JavaScript primitive value, as far as this module manipulates them. -/
inductive JSPrim where
  | num (n : JSNum)
  | str (s : String)
  | nullV
  | undefV
  | boolV (b : Bool)
deriving DecidableEq, Repr

/-- ECMAScript ToString on the values above (integer numbers print in plain
decimal, which holds for every value the module writes to a cookie). -/
def jsToString : JSPrim → String
  | .num .nan => "NaN"
  | .num (.int n) => toString n
  | .str s => s
  | .nullV => "null"
  | .undefV => "undefined"
  | .boolV b => if b then ("true") else ("false")

/-- The value of a list of decimal digits, most significant first. -/
def natOfDigits (l : List Char) : Nat :=
  l.foldl (fun acc c => acc * 10 + (c.toNat - 48)) 0

/-- ECMAScript ToNumber on a string, restricted to the shapes the module
produces: the empty string is 0, a plain non-empty decimal digit string is its
value, anything else is NaN.  (Cookie timestamps written by the module are
plain decimal digit strings of epoch milliseconds.) -/
def strToNumber (s : String) : JSNum :=
  if s.data.isEmpty then .int 0
  else if s.data.all Char.isDigit then .int (natOfDigits s.data)
  else .nan

/-- ECMAScript ToNumber. -/
def toNumber : JSPrim → JSNum
  | .num n => n
  | .str s => strToNumber s
  | .nullV => .int 0
  | .undefV => .nan
  | .boolV b => .int (if b then 1 else 0)

/-- ECMAScript binary `+`: if either operand is a string the result is the
string concatenation of both, otherwise numeric addition. -/
def jsAdd (a b : JSPrim) : JSPrim :=
  match a, b with
  | .str s, _ => .str (s ++ jsToString b)
  | _, .str s => .str (jsToString a ++ s)
  | _, _ =>
    match toNumber a, toNumber b with
    | .int x, .int y => .num (.int (x + y))
    | _, _ => .num .nan

/-- ECMAScript relational `<`: string comparison when both operands are
strings, otherwise numeric comparison (false when either side is NaN). -/
def jsLt (a b : JSPrim) : Bool :=
  match a, b with
  | .str s1, .str s2 => decide (s1 < s2)
  | _, _ =>
    match toNumber a, toNumber b with
    | .int x, .int y => decide (x < y)
    | _, _ => false

/-- Modelled from the spec: `utils.isStr` (a Prebid core utility, not under
src/) — true exactly on string values. -/
def isStr : JSPrim → Bool
  | .str _ => true
  | _ => false

/-- Modelled from the spec: `utils.isEmptyStr` as the orchestrator uses it on
a candidate identifier.  Per the spec an undefined/empty/non-string uid is
"no identifier obtained", so the predicate holds on everything except a
non-empty string. -/
def isEmptyStr : JSPrim → Bool
  | .str s => s.isEmpty
  | _ => true

/-- JS truthiness of a cookie read: `storage.getCookie` returns the cookie
string or null; null and the empty string are falsy. -/
def cookieTruthy : Option String → Bool
  | some s => !s.isEmpty
  | none => false

/-- A cookie read result as a JS value (absent cookie reads as null). -/
def cookieToJS : Option String → JSPrim
  | some s => .str s
  | none => .nullV

/-- The `params` object of a caller configuration.  Each field is absent
(`none`) or present with the value of its documented type. -/
structure JSParams where
  mode : Option String
  atmVarName : Option String
  cookiePfx : Option String
  cookieTtlSeconds : Option Int
  cookieRefreshSeconds : Option Int
  domain : Option String
  partner : Option String
deriving DecidableEq, Repr

/-- The all-absent params object. -/
def JSParams.empty : JSParams :=
  ⟨none, none, none, none, none, none, none⟩

/-- A raw caller configuration: null/undefined, or an object whose `params`
property is absent or an object. -/
inductive RawConfig where
  | nullish
  | obj (params : Option JSParams)
deriving DecidableEq, Repr

/-- A synchronously thrown JavaScript error. -/
inductive JSError where
  | typeError (msg : String)
deriving DecidableEq, Repr

/-- Models `eoin(c.params)`: the params object, or an empty object when absent. -/
def eoinParams : Option JSParams → JSParams
  | some p => p
  | none => JSParams.empty

/-- JS `x || d` on an optional string parameter (the empty string is falsy
and also falls back to the default). -/
def orDefaultStr : Option String → String → String
  | some s, d => if s.isEmpty then d else s
  | none, d => d

/-- JS `x || d` on an optional numeric parameter (0 is falsy and also falls
back to the default). -/
def orDefaultInt : Option Int → Int → Int
  | some n, d => if n = 0 then d else n
  | none, d => d

def DAY_IN_SECONDS : Int := 24 * 60 * 60

def YEAR_IN_SECONDS : Int := 365 * DAY_IN_SECONDS

def DEFAULT_DOMAIN : String := "id.nsaudience.pl"

def DEFAULT_PARTNER : String := "pbjs-just-id-module"

def DEFAULT_MODE : String := "EXTERNAL"

def UID_COOKIE_SUFFIX : String := "uid"

def UT_COOKIE_SUFFIX : String := "ut"

/-- The state captured by a constructed `ConfigWrapper`: the (non-null)
configuration's params. -/
structure ConfigWrapper where
  params : JSParams
deriving DecidableEq, Repr

/-- Constructor `new ConfigWrapper(config)`.  The constructor evaluates
`params(config).cookiePrefix`, and `params(c)` dereferences `c.params`, which
throws a TypeError when the configuration itself is null/undefined. -/
def ConfigWrapper.make : RawConfig → Except JSError ConfigWrapper
  | .nullish => .error (.typeError ("cannot read property params of nullish config"))
  | .obj p => .ok ⟨eoinParams p⟩

def ConfigWrapper.cookiePfx (w : ConfigWrapper) : String :=
  orDefaultStr w.params.cookiePfx ("__jt")

def ConfigWrapper.getUidCookieName (w : ConfigWrapper) : String :=
  w.cookiePfx ++ UID_COOKIE_SUFFIX

def ConfigWrapper.getUtCookieName (w : ConfigWrapper) : String :=
  w.cookiePfx ++ UT_COOKIE_SUFFIX

def ConfigWrapper.getCookieTtlSeconds (w : ConfigWrapper) : Int :=
  orDefaultInt w.params.cookieTtlSeconds (2 * YEAR_IN_SECONDS)

def ConfigWrapper.getCookieRefreshSeconds (w : ConfigWrapper) : Int :=
  orDefaultInt w.params.cookieRefreshSeconds DAY_IN_SECONDS

def ConfigWrapper.isExternalMode (w : ConfigWrapper) : Bool :=
  orDefaultStr w.params.mode DEFAULT_MODE = "EXTERNAL"

def ConfigWrapper.getAtmVarName (w : ConfigWrapper) : String :=
  orDefaultStr w.params.atmVarName ("__atm")

/-- UTF-8 bytes of a code point. -/
def utf8Bytes (n : Nat) : List Nat :=
  if n < 128 then [n]
  else if n < 2048 then [192 + n / 64, 128 + n % 64]
  else if n < 65536 then [224 + n / 4096, 128 + (n / 64) % 64, 128 + n % 64]
  else [240 + n / 262144, 128 + (n / 4096) % 64, 128 + (n / 64) % 64, 128 + n % 64]

def hexDigit (n : Nat) : Char :=
  if n < 10 then Char.ofNat (48 + n) else Char.ofNat (55 + n)

def percentByte (b : Nat) : String :=
  "%" ++ String.singleton (hexDigit (b / 16)) ++ String.singleton (hexDigit (b % 16))

/-- application/x-www-form-urlencoded serialization of one character, as
`URLSearchParams.toString` performs it. -/
def formEncodeChar (c : Char) : String :=
  if c.isAlphanum || c = '-' || c = '.' || c = '_' || c = '*' then String.singleton c
  else if c = ' ' then ("+")
  else String.join ((utf8Bytes c.toNat).map percentByte)

/-- application/x-www-form-urlencoded serialization of a string. -/
def formEncode (s : String) : String :=
  String.join (s.toList.map formEncodeChar)

/-- The WHATWG URL value built by `ConfigWrapper.getUrl`: the module only
ever constructs `https://<host><pathname>` with at most one query
parameter. -/
structure UrlM where
  host : String
  pathname : String
  search : Option (String × String)
deriving DecidableEq, Repr

/-- Renders `url.toString()` for the URLs this module builds. -/
def UrlM.render (u : UrlM) : String :=
  "https://" ++ u.host ++ u.pathname ++
    match u.search with
    | none => ""
    | some kv => "?" ++ formEncode kv.1 ++ "=" ++ formEncode kv.2

/-- Accessor `ConfigWrapper.getUrl`: builds `new URL("https://<domain>/getId")` and, in
EXTERNAL mode, appends `.js` to the pathname and the `sourceId` search
parameter.  Faithful to `new URL` for domains that are already normalized
hosts (lowercase letters, digits, dots, hyphens). -/
def ConfigWrapper.getUrl (w : ConfigWrapper) : UrlM :=
  let domain := orDefaultStr w.params.domain DEFAULT_DOMAIN
  let url : UrlM := ⟨domain, "/getId", none⟩
  if w.isExternalMode then
    let partner := orDefaultStr w.params.partner DEFAULT_PARTNER
    ⟨url.host, url.pathname ++ ".js", some ("sourceId", partner)⟩
  else url

/-- Hosts for which the `new URL` template parse is the identity. -/
def hostPlain (s : String) : Bool :=
  !s.data.isEmpty && s.data.all (fun c => c.isLower || c.isDigit || c = '.' || c = '-')

/-- The parse of the id-server response body: empty (per `utils.isEmpty`),
not JSON (so `JSON.parse` throws), or a JSON object whose `uid` and `tld`
fields have the given values (absent fields read as undefined). -/
inductive BodyModel where
  | empty
  | malformed
  | parsed (uid : JSPrim) (tld : JSPrim)
deriving DecidableEq, Repr

/-- The outcome of the POST issued through `ajax`: the transport invokes
either the error callback or the success callback with a body. -/
inductive NetResult where
  | error
  | success (body : BodyModel)
deriving DecidableEq, Repr

/-- The external world a single resolution call interacts with. -/
structure Env where
  /-- whether `window[atmVarName]` is a function -/
  atmPresent : Bool
  /-- ms after the probe starts at which the ATM invokes the
  `getReadyState` completion callback, or `none` if it never does -/
  readyAt : Option Nat
  /-- the value `atm('getVersion')` yields (directly or via a promise) -/
  atmVersion : JSPrim
  /-- the value `atm('getUid')` yields -/
  atmUid : JSPrim
  /-- contents of the `<prefix>uid` cookie at read time -/
  cookieUid : Option String
  /-- contents of the `<prefix>ut` cookie at read time -/
  cookieUt : Option String
  /-- Value of `new Date().getTime()` at the start of the internal provider -/
  now : Int
  /-- outcome of the id-server POST, should one be issued -/
  net : NetResult
  /-- Value of `event.detail && event.detail.justId` of the `justIdReady` signal,
  or `none` if the external script never dispatches it -/
  extSignal : Option JSPrim
deriving DecidableEq, Repr

/-- An externally observable effect of a resolution call, in order. -/
inductive Event where
  /-- the internal provider reads both cache cookies (uid, ut) -/
  | cacheRead (uid : Option String) (ut : Option String)
  /-- Effect of `setUidCookie`: both cache cookies written (uid value, the captured
  `now` timestamp, and the tld scope) -/
  | cacheWrite (uid : JSPrim) (ut : Int) (tld : JSPrim)
  /-- a POST to the given URL -/
  | netPost (url : String)
  /-- a command sent to the ATM capability handle -/
  | atmCmd (cmd : String)
  /-- the external provider injects the endpoint script -/
  | scriptInject (url : String)
  /-- the caller's callback fires: `some uid` for `cbFun({uid})`,
  `none` for the no-argument `cbFun()` -/
  | cbCall (arg : Option String)
deriving DecidableEq, Repr

/-- The state of the promise built by `promiseWithTimeout`. -/
inductive PromiseState where
  | pending
  | resolved (v : JSPrim)
  | rejected
deriving DecidableEq, Repr

/-- A settlement attempt on that promise: the ready-state completion
callback, or the firing of the timeout timer. -/
inductive RaceEvent where
  | readySignal (v : JSPrim)
  | timeoutFire
deriving DecidableEq, Repr

/-- ECMAScript promise settlement: the first resolve/reject wins; any later
settlement attempt on an already-settled promise is a no-op. -/
def settle (s : PromiseState) (e : RaceEvent) : PromiseState :=
  match s with
  | .pending =>
    match e with
    | .readySignal v => .resolved v
    | .timeoutFire => .rejected
  | s => s

/-- The settlement attempts delivered to the `promiseWithTimeout` promise, in
time order.  A ready signal strictly before the deadline clears the timer
(`callAndClearTimeout`), so the timer never fires; otherwise the timer fires
at the deadline and a late ready signal, if any, arrives afterwards. -/
def raceEvents (readyAt : Option Nat) (timeoutMs : Nat) : List RaceEvent :=
  match readyAt with
  | some t =>
    if t < timeoutMs then [.readySignal (.str ("ready"))]
    else [.timeoutFire, .readySignal (.str ("ready"))]
  | none => [.timeoutFire]

/-- Models `promiseWithTimeout` applied to the getReadyState call: the
final state of the promise after all settlement attempts. -/
def runRace (readyAt : Option Nat) (timeoutMs : Nat) : PromiseState :=
  (raceEvents readyAt timeoutMs).foldl settle .pending

/-- The settled outcome of `AtmUidProvider.getUid()`. -/
inductive ProbeOutcome where
  | resolvedUid (v : JSPrim)
  | rejected (reason : String)
deriving DecidableEq, Repr

/-- Probe `AtmUidProvider.getUid`: absent handle rejects at once; otherwise
`getReadyState` is raced against a 5000 ms timeout; on readiness
`getVersion` feature-gates `getUid`. -/
def atmGetUid (env : Env) : List Event × ProbeOutcome :=
  if !env.atmPresent then
    ([], .rejected ("atm function not found"))
  else
    let ev0 := [Event.atmCmd ("getReadyState")]
    match runRace env.readyAt 5000 with
    | .resolved _ =>
      let ev1 := ev0 ++ [Event.atmCmd ("getVersion")]
      if isStr env.atmVersion then
        (ev1 ++ [Event.atmCmd ("getUid")], .resolvedUid env.atmUid)
      else
        (ev1, .rejected ("ATM getUid not supported"))
    | .rejected => (ev0, .rejected ("timeout"))
    | .pending => (ev0, .rejected ("timeout"))

/-- Whether the probe fails (so that control falls through to the
mode-selected provider). -/
def probeFails (env : Env) : Bool :=
  match (atmGetUid env).2 with
  | .rejected _ => true
  | .resolvedUid _ => false

/-- The settled outcome of a fallback provider's promise. -/
inductive ProviderOutcome where
  | resolved (v : JSPrim)
  | rejected (reason : String)
  | neverSettles
deriving DecidableEq, Repr

/-- Provider `InternalUidProvider`: the constructor reads both cache cookies; `getUid`
returns the stored uid when the record is deemed fresh (note that `uidTime`
is the cookie string, so the JS `+` in the freshness test concatenates), and
otherwise issues one POST whose response settles the promise; a parsed
response also rewrites both cookies. -/
def internalProvider (w : ConfigWrapper) (env : Env) : List Event × ProviderOutcome :=
  let prevStoredId := env.cookieUid
  let uidTime := env.cookieUt
  let readEv := [Event.cacheRead prevStoredId uidTime]
  let fresh := cookieTruthy prevStoredId &&
    jsLt (.num (.int env.now))
      (jsAdd (cookieToJS uidTime) (.num (.int (w.getCookieRefreshSeconds * 1000))))
  if fresh then
    (readEv, .resolved (cookieToJS prevStoredId))
  else
    let postEv := readEv ++ [Event.netPost (w.getUrl).render]
    match env.net with
    | .error => (postEv, .rejected ("transport error"))
    | .success .empty => (postEv, .rejected ("empty getId response"))
    | .success .malformed => (postEv, .rejected ("parsing error"))
    | .success (.parsed uid tld) =>
      (postEv ++ [Event.cacheWrite uid env.now tld], .resolved uid)

/-- Provider `ExternalUidProvider`: injects the endpoint script and settles only when
(and if) the `justIdReady` signal arrives. -/
def externalProvider (w : ConfigWrapper) (env : Env) : List Event × ProviderOutcome :=
  let injectEv := [Event.scriptInject (w.getUrl).render]
  match env.extSignal with
  | some v => (injectEv, .resolved v)
  | none => (injectEv, .neverSettles)

/-- The then-handler of the orchestrator chain: an empty identifier makes the
callback fire with no argument, otherwise with the uid object. -/
def finishCb (uid : JSPrim) : List Event :=
  if isEmptyStr uid then [Event.cbCall none]
  else [Event.cbCall (some (jsToString uid))]

/-- The body of the `getId` callback, inside its `try`: builds the
`ConfigWrapper` (throwing on a nullish configuration), runs the probe, falls
through to the mode-selected provider on probe failure, and funnels exactly
one settled outcome into the caller's callback (no-argument on rejection). -/
def runInner (cfg : RawConfig) (env : Env) : Except JSError (List Event) :=
  match ConfigWrapper.make cfg with
  | .error e => .error e
  | .ok w =>
    let probe := atmGetUid env
    match probe.2 with
    | .resolvedUid v => .ok (probe.1 ++ finishCb v)
    | .rejected _ =>
      let prov := if w.isExternalMode then externalProvider w env else internalProvider w env
      match prov.2 with
      | .resolved v => .ok (probe.1 ++ prov.1 ++ finishCb v)
      | .rejected _ => .ok (probe.1 ++ prov.1 ++ [Event.cbCall none])
      | .neverSettles => .ok (probe.1 ++ prov.1)

/-- Entry point `justIdSubmodule.getId(config, ...).callback(cbFun)`: the outermost
`try`/`catch` catches any synchronous exception and only logs it — the
callback is not invoked on that path and nothing propagates to the host. -/
def runGetIdCallback (cfg : RawConfig) (env : Env) : List Event :=
  match runInner cfg env with
  | .ok t => t
  | .error _ => []

def isCbEvent : Event → Bool
  | .cbCall _ => true
  | _ => false

def isNetEvent : Event → Bool
  | .netPost _ => true
  | _ => false

def isReadEvent : Event → Bool
  | .cacheRead _ _ => true
  | _ => false

def isWriteEvent : Event → Bool
  | .cacheWrite _ _ _ => true
  | _ => false

/-- Number of times the caller's callback fires in a trace. -/
def cbCount (t : List Event) : Nat := (t.filter isCbEvent).length

/-- Number of network POSTs in a trace. -/
def netCount (t : List Event) : Nat := (t.filter isNetEvent).length

/-- Number of cache-record reads in a trace (one read covers both cookies,
as in the provider's constructor). -/
def readCount (t : List Event) : Nat := (t.filter isReadEvent).length

/-- Number of cache-record writes in a trace (one write covers both cookies,
as in `setUidCookie`). -/
def writeCount (t : List Event) : Nat := (t.filter isWriteEvent).length

/-- Environment realizing the failing input of C1: both cache cookies were
written at T = 1600000000000 ms (so the ut cookie holds the digit string
"1600000000000"), and the resolution starts at T + 2·86400·1000 ms, two full
refresh windows later; the ATM handle is absent. -/
def envC1 : Env :=
  ⟨false, none, .undefV, .undefV, some ("user123"), some ("1600000000000"),
   1600172800000, .error, none⟩

/-- An INTERNAL-mode configuration with cacheRefreshSeconds = 86400 (one
day, the default value, given explicitly). -/
def cfgC1 : RawConfig :=
  .obj (some ⟨some ("INTERNAL"), none, none, none, some 86400, none, none⟩)

/-- Environment for C2: the concrete surroundings are irrelevant because the
nullish configuration makes the callback body throw before any effect. -/
def envC2 : Env := ⟨false, none, .undefV, .undefV, none, none, 0, .error, none⟩

/-- Configuration for C3: the `mode` parameter (and everything else) is
absent. -/
def cfgC3 : RawConfig := .obj none

/-- Environment for C3: the ATM handle is absent (probe failure) and a cache
record is even present and would be deemed fresh — yet the external path is
taken, so the cache is never read. -/
def envC3 : Env :=
  ⟨false, none, .undefV, .undefV, some ("stored"), some ("1600000000000"),
   1600000000001, .error, some (.str ("user123"))⟩

/-- Environment for the C5 witness: probe fails (handle absent), internal
mode, stale cache, and a parsed server response. -/
def envC5 : Env :=
  ⟨false, none, .undefV, .undefV, none, none, 5,
   .success (.parsed (.str ("u77")) .undefV), none⟩

/-- Environment for the C6 witness: the ready signal arrives at 7000 ms,
after the 5000 ms deadline. -/
def envC6 : Env :=
  ⟨true, some 7000, .str ("1.0"), .str ("uA"), none, none, 0, .error, some (.str ("uB"))⟩

/-- Environment for the C7 witness: ready at 100 ms, but `getVersion` yields
the number 7 rather than a string. -/
def envC7 : Env :=
  ⟨true, some 100, .num (.int 7), .undefV, none, none, 0, .error, some (.str ("x"))⟩

/-- Environment for C10: probe fails, no cache record, the response parses
with an empty-string uid scoped to a tld. -/
def envC10 : Env :=
  ⟨false, none, .undefV, .undefV, none, none, 1700000000000,
   .success (.parsed (.str ("")) (.str ("example.com"))), none⟩

/-- The INTERNAL-mode configuration for the C10 witness. -/
def opC10 : Option JSParams :=
  some ⟨some ("INTERNAL"), none, none, none, none, none, none⟩

theorem cbCount_append (a b : List Event) :
    cbCount (a ++ b) = cbCount a + cbCount b := by
  simp [cbCount, List.filter_append]

theorem netCount_append (a b : List Event) :
    netCount (a ++ b) = netCount a + netCount b := by
  simp [netCount, List.filter_append]

theorem readCount_append (a b : List Event) :
    readCount (a ++ b) = readCount a + readCount b := by
  simp [readCount, List.filter_append]

theorem writeCount_append (a b : List Event) :
    writeCount (a ++ b) = writeCount a + writeCount b := by
  simp [writeCount, List.filter_append]

theorem cbCount_finishCb (v : JSPrim) : cbCount (finishCb v) = 1 := by
  unfold finishCb; split <;> rfl

theorem cbCount_cb_none : cbCount [Event.cbCall none] = 1 := rfl

theorem readCount_inject (u : String) : readCount [Event.scriptInject u] = 0 := rfl

theorem netCount_inject (u : String) : netCount [Event.scriptInject u] = 0 := rfl

theorem readCount_nil : readCount ([] : List Event) = 0 := rfl

theorem netCount_nil : netCount ([] : List Event) = 0 := rfl

theorem writeCount_nil : writeCount ([] : List Event) = 0 := rfl

theorem readCount_cb_none : readCount [Event.cbCall none] = 0 := rfl

theorem writeCount_cb_none : writeCount [Event.cbCall none] = 0 := rfl

theorem writeCount_inject (u : String) : writeCount [Event.scriptInject u] = 0 := rfl

theorem writeCount_inject_cons (u : String) (t : List Event) :
    writeCount (Event.scriptInject u :: t) = writeCount t := by
  simp [writeCount, List.filter_cons, isWriteEvent]

/-- A cache write in the trace forces a positive write count. -/
theorem write_mem_le (u : JSPrim) (ts : Int) (tld : JSPrim) (t : List Event)
    (h : Event.cacheWrite u ts tld ∈ t) : 1 ≤ writeCount t := by
  have hf : Event.cacheWrite u ts tld ∈ t.filter isWriteEvent :=
    List.mem_filter.mpr ⟨h, rfl⟩
  have hne : t.filter isWriteEvent ≠ [] := List.ne_nil_of_mem hf
  have hpos := List.length_pos.mpr hne
  unfold writeCount
  omega

theorem cbCount_inject (u : String) : cbCount [Event.scriptInject u] = 0 := rfl

theorem cbCount_inject_cons (u : String) (t : List Event) :
    cbCount (Event.scriptInject u :: t) = cbCount t := by
  simp [cbCount, List.filter_cons, isCbEvent]

theorem readCount_inject_cons (u : String) (t : List Event) :
    readCount (Event.scriptInject u :: t) = readCount t := by
  simp [readCount, List.filter_cons, isReadEvent]

theorem netCount_inject_cons (u : String) (t : List Event) :
    netCount (Event.scriptInject u :: t) = netCount t := by
  simp [netCount, List.filter_cons, isNetEvent]

theorem netCount_finishCb (v : JSPrim) : netCount (finishCb v) = 0 := by
  unfold finishCb; split <;> rfl

theorem readCount_finishCb (v : JSPrim) : readCount (finishCb v) = 0 := by
  unfold finishCb; split <;> rfl

theorem writeCount_finishCb (v : JSPrim) : writeCount (finishCb v) = 0 := by
  unfold finishCb; split <;> rfl

/-- The probe's event list is one of four concrete command sequences. -/
theorem atmGetUid_fst_cases (env : Env) :
    (atmGetUid env).1 = [] ∨
    (atmGetUid env).1 = [Event.atmCmd ("getReadyState")] ∨
    (atmGetUid env).1 = [Event.atmCmd ("getReadyState"), Event.atmCmd ("getVersion")] ∨
    (atmGetUid env).1 =
      [Event.atmCmd ("getReadyState"), Event.atmCmd ("getVersion"), Event.atmCmd ("getUid")] := by
  simp only [atmGetUid]
  split
  · exact Or.inl rfl
  · split
    · split
      · exact Or.inr (Or.inr (Or.inr rfl))
      · exact Or.inr (Or.inr (Or.inl rfl))
    · exact Or.inr (Or.inl rfl)
    · exact Or.inr (Or.inl rfl)

/-- The `getUid` command is sent only when `getVersion` yielded a string. -/
theorem atmGetUid_feature_gate (env : Env)
    (h : Event.atmCmd ("getUid") ∈ (atmGetUid env).1) : isStr env.atmVersion = true := by
  by_contra hv
  revert h
  simp only [atmGetUid]
  split
  · simp
  · split <;> simp_all

/-- The probe issues no cookie, network, or callback events. -/
theorem atmGetUid_counts (env : Env) :
    cbCount (atmGetUid env).1 = 0 ∧ netCount (atmGetUid env).1 = 0 ∧
    readCount (atmGetUid env).1 = 0 ∧ writeCount (atmGetUid env).1 = 0 := by
  rcases atmGetUid_fst_cases env with h | h | h | h <;> rw [h] <;> exact ⟨rfl, rfl, rfl, rfl⟩

/-- The external provider's event list is the single script injection. -/
theorem externalProvider_fst (w : ConfigWrapper) (env : Env) :
    (externalProvider w env).1 = [Event.scriptInject (w.getUrl).render] := by
  unfold externalProvider
  cases env.extSignal <;> rfl

/-- The internal provider's event list: the cache read, optionally followed
by the POST, optionally followed by the cache write (the latter exactly when
the response parsed). -/
theorem internalProvider_fst_cases (w : ConfigWrapper) (env : Env) :
    (internalProvider w env).1 = [Event.cacheRead env.cookieUid env.cookieUt] ∨
    (internalProvider w env).1 =
      [Event.cacheRead env.cookieUid env.cookieUt, Event.netPost (w.getUrl).render] ∨
    ∃ u tld, env.net = .success (.parsed u tld) ∧
      (internalProvider w env).1 =
        [Event.cacheRead env.cookieUid env.cookieUt, Event.netPost (w.getUrl).render,
         Event.cacheWrite u env.now tld] := by
  simp only [internalProvider]
  split
  · exact Or.inl rfl
  · split
    · exact Or.inr (Or.inl rfl)
    · exact Or.inr (Or.inl rfl)
    · exact Or.inr (Or.inl rfl)
    next u tld hn => exact Or.inr (Or.inr ⟨u, tld, hn, rfl⟩)

/-- Neither fallback provider fires the callback itself. -/
theorem provider_cb_zero (w : ConfigWrapper) (env : Env) :
    cbCount (externalProvider w env).1 = 0 ∧ cbCount (internalProvider w env).1 = 0 := by
  refine ⟨by rw [externalProvider_fst]; rfl, ?_⟩
  rcases internalProvider_fst_cases w env with h | h | ⟨u, tld, _, h⟩ <;> rw [h] <;> rfl

/-- The caller's callback fires at most once per resolution call, over every
configuration and every environment. -/
theorem cb_le_one (cfg : RawConfig) (env : Env) :
    cbCount (runGetIdCallback cfg env) ≤ 1 := by
  cases cfg with
  | nullish => simp [runGetIdCallback, runInner, ConfigWrapper.make, cbCount]
  | obj op =>
    simp only [runGetIdCallback, runInner, ConfigWrapper.make]
    cases hp : (atmGetUid env).2 with
    | resolvedUid v =>
      simp [cbCount_append, cbCount_finishCb, (atmGetUid_counts env).1]
    | rejected r =>
      cases hm : ConfigWrapper.isExternalMode ⟨eoinParams op⟩ with
      | true =>
        cases hq : (externalProvider ⟨eoinParams op⟩ env).2 <;>
          simp [hm, hq, cbCount_append, cbCount_finishCb, cbCount_cb_none,
            (atmGetUid_counts env).1, (provider_cb_zero ⟨eoinParams op⟩ env).1]
      | false =>
        cases hq : (internalProvider ⟨eoinParams op⟩ env).2 <;>
          simp [hm, hq, cbCount_append, cbCount_finishCb, cbCount_cb_none,
            (atmGetUid_counts env).1, (provider_cb_zero ⟨eoinParams op⟩ env).2]

/-- The trace of a resolution whose probe succeeds. -/
theorem runGetId_probeOk (op : Option JSParams) (env : Env) (v : JSPrim)
    (hp : (atmGetUid env).2 = ProbeOutcome.resolvedUid v) :
    runGetIdCallback (.obj op) env = (atmGetUid env).1 ++ finishCb v := by
  simp [runGetIdCallback, runInner, ConfigWrapper.make, hp]

/-- The trace of a resolution that falls through to the external provider. -/
theorem runGetId_external (op : Option JSParams) (env : Env) (r : String)
    (hext : ConfigWrapper.isExternalMode ⟨eoinParams op⟩ = true)
    (hr : (atmGetUid env).2 = ProbeOutcome.rejected r) :
    runGetIdCallback (.obj op) env =
      (atmGetUid env).1 ++
        [Event.scriptInject ((ConfigWrapper.getUrl ⟨eoinParams op⟩).render)] ++
        (match env.extSignal with
         | some v => finishCb v
         | none => []) := by
  cases hs : env.extSignal <;>
    simp [runGetIdCallback, runInner, ConfigWrapper.make, hr, hext,
      externalProvider, hs]

/-- The trace of a resolution that falls through to the internal provider. -/
theorem runGetId_internal (op : Option JSParams) (env : Env) (r : String)
    (hext : ConfigWrapper.isExternalMode ⟨eoinParams op⟩ = false)
    (hr : (atmGetUid env).2 = ProbeOutcome.rejected r) :
    runGetIdCallback (.obj op) env =
      (atmGetUid env).1 ++ (internalProvider ⟨eoinParams op⟩ env).1 ++
        (match (internalProvider ⟨eoinParams op⟩ env).2 with
         | .resolved v => finishCb v
         | .rejected _ => [Event.cbCall none]
         | .neverSettles => []) := by
  cases hq : (internalProvider ⟨eoinParams op⟩ env).2 <;>
    simp [runGetIdCallback, runInner, ConfigWrapper.make, hr, hext, hq]

/-- The internal provider's promise always settles. -/
theorem internal_settles (w : ConfigWrapper) (env : Env) :
    (internalProvider w env).2 ≠ ProviderOutcome.neverSettles := by
  simp only [internalProvider]
  split
  · simp
  · split <;> simp

/-- A failed probe is a rejected probe promise. -/
theorem probeFails_rejected (env : Env) (hf : probeFails env = true) :
    ∃ r, (atmGetUid env).2 = ProbeOutcome.rejected r := by
  revert hf
  unfold probeFails
  cases (atmGetUid env).2 <;> simp

/-- Claim C1: the spec demands that a resolution at T + 2·S issue exactly one
POST to the id server.  The code instead returns the cached uid and issues no
network request: `uidTime` is the ut cookie STRING, so the JS `+` in
`now < uidTime + cookieRefreshSeconds * 1000` concatenates
"1600000000000" with "86400000", and the comparison is against the number
160000000000086400000 ≈ 1.6·10^20, which every realistic clock value is
below.  The cache is therefore deemed fresh forever once the uid cookie is
present. -/
theorem c1_freshness_string_concat_bug :
    runGetIdCallback cfgC1 envC1 =
      [Event.cacheRead (some ("user123")) (some ("1600000000000")),
       Event.cbCall (some ("user123"))] ∧
    netCount (runGetIdCallback cfgC1 envC1) = 0 ∧
    jsAdd (cookieToJS envC1.cookieUt) (.num (.int (86400 * 1000))) =
      .str ("160000000000086400000") := by
  exact ⟨by decide, by decide, by decide⟩

/-- Claim C2 counterexample: with a nullish configuration the `ConfigWrapper`
constructor throws synchronously; the outer catch swallows the exception
after logging, so the trace is empty — the caller's callback is NOT invoked,
contradicting the claimed conversion into a no-argument invocation. -/
theorem c2_swallowed_no_callback_cex :
    runGetIdCallback RawConfig.nullish envC2 = [] ∧
    cbCount (runGetIdCallback RawConfig.nullish envC2) = 0 :=
  ⟨rfl, rfl⟩

/-- Claim C2 (amended): any synchronous exception inside the getId callback
is caught at the outermost boundary and only logged — no exception ever
propagates to the host, but on that path the caller's callback is not
invoked at all (the trace is empty). -/
theorem c2_sync_throw_swallowed (cfg : RawConfig) (env : Env) (err : JSError)
    (h : runInner cfg env = .error err) :
    runGetIdCallback cfg env = [] := by
  simp [runGetIdCallback, h]

/-- Witness for the amended C2 at the nullish configuration. -/
theorem c2_sync_throw_swallowed_witness :
    runInner RawConfig.nullish envC2 =
      .error (.typeError ("cannot read property params of nullish config")) ∧
    runGetIdCallback RawConfig.nullish envC2 = [] :=
  ⟨rfl, c2_sync_throw_swallowed RawConfig.nullish envC2
    (.typeError ("cannot read property params of nullish config")) rfl⟩

/-- Claim C3 counterexample: with `mode` absent the default is EXTERNAL, not
INTERNAL — after the probe failure the orchestrator injects the external
script (ChannelProvider) and performs no cache read and no POST, even though
a cache record is present. -/
theorem c3_default_mode_cex :
    ConfigWrapper.isExternalMode ⟨eoinParams none⟩ = true ∧
    runGetIdCallback cfgC3 envC3 =
      [Event.scriptInject ("https://id.nsaudience.pl/getId.js?sourceId=pbjs-just-id-module"),
       Event.cbCall (some ("user123"))] ∧
    readCount (runGetIdCallback cfgC3 envC3) = 0 ∧
    netCount (runGetIdCallback cfgC3 envC3) = 0 := by
  exact ⟨by decide, by decide, by decide, by decide⟩

/-- Claim C3 (amended): when the `mode` parameter is absent the default mode
is EXTERNAL — after a probe failure the orchestrator dispatches to the
external script-injection provider, not to the remote-server provider: the
script is injected and the trace contains no cache read and no POST. -/
theorem c3_default_mode_external (op : Option JSParams) (env : Env)
    (hm : (eoinParams op).mode = none) (hf : probeFails env = true) :
    ConfigWrapper.isExternalMode ⟨eoinParams op⟩ = true ∧
    Event.scriptInject ((ConfigWrapper.getUrl ⟨eoinParams op⟩).render) ∈
      runGetIdCallback (.obj op) env ∧
    readCount (runGetIdCallback (.obj op) env) = 0 ∧
    netCount (runGetIdCallback (.obj op) env) = 0 := by
  have hext : ConfigWrapper.isExternalMode ⟨eoinParams op⟩ = true := by
    simp [ConfigWrapper.isExternalMode, hm, orDefaultStr, DEFAULT_MODE]
  obtain ⟨r, hr⟩ := probeFails_rejected env hf
  have ht := runGetId_external op env r hext hr
  refine ⟨hext, ?_, ?_, ?_⟩
  · rw [ht]; simp
  · rw [ht]
    cases hs : env.extSignal <;>
      simp [hs, readCount_append, (atmGetUid_counts env).2.2.1, readCount_finishCb,
        readCount_inject, readCount_nil, readCount_inject_cons]
  · rw [ht]
    cases hs : env.extSignal <;>
      simp [hs, netCount_append, (atmGetUid_counts env).2.1, netCount_finishCb,
        netCount_inject, netCount_nil, netCount_inject_cons]

/-- Witness for the amended C3 at the all-default configuration. -/
theorem c3_default_mode_external_witness :
    ConfigWrapper.isExternalMode ⟨eoinParams none⟩ = true ∧
    Event.scriptInject ((ConfigWrapper.getUrl ⟨eoinParams none⟩).render) ∈
      runGetIdCallback (.obj none) envC3 ∧
    readCount (runGetIdCallback (.obj none) envC3) = 0 ∧
    netCount (runGetIdCallback (.obj none) envC3) = 0 :=
  c3_default_mode_external none envC3 rfl (by decide)

/-- Claim C4 counterexample: constructing the `ConfigWrapper` from a
null/undefined configuration throws a TypeError (the constructor evaluates
`config.params`), contradicting "never throws ... including absent, null". -/
theorem c4_nullish_throws_cex :
    ConfigWrapper.make RawConfig.nullish =
      .error (.typeError ("cannot read property params of nullish config")) := rfl

/-- Claim C4 (amended): for every non-null configuration object the wrapper
construction succeeds and every accessor resolves an absent parameter to its
documented default (cookie names "__jtuid"/"__jtut" from prefix "__jt", TTL
two years = 63072000 s, refresh one day = 86400 s, atmVarName "__atm",
domain "id.nsaudience.pl", partner "pbjs-just-id-module"); a null
configuration throws in the constructor (caught by the orchestrator). -/
theorem c4_defaults (op : Option JSParams) :
    ConfigWrapper.make (.obj op) = .ok ⟨eoinParams op⟩ ∧
    ((eoinParams op).cookiePfx = none →
      ConfigWrapper.getUidCookieName ⟨eoinParams op⟩ = "__jtuid" ∧
      ConfigWrapper.getUtCookieName ⟨eoinParams op⟩ = "__jtut") ∧
    ((eoinParams op).cookieTtlSeconds = none →
      ConfigWrapper.getCookieTtlSeconds ⟨eoinParams op⟩ = 63072000) ∧
    ((eoinParams op).cookieRefreshSeconds = none →
      ConfigWrapper.getCookieRefreshSeconds ⟨eoinParams op⟩ = 86400) ∧
    ((eoinParams op).atmVarName = none →
      ConfigWrapper.getAtmVarName ⟨eoinParams op⟩ = "__atm") ∧
    ((eoinParams op).domain = none →
      (ConfigWrapper.getUrl ⟨eoinParams op⟩).host = "id.nsaudience.pl") ∧
    ((eoinParams op).partner = none → ConfigWrapper.isExternalMode ⟨eoinParams op⟩ = true →
      (ConfigWrapper.getUrl ⟨eoinParams op⟩).search =
        some ("sourceId", "pbjs-just-id-module")) := by
  refine ⟨rfl, ?_, ?_, ?_, ?_, ?_, ?_⟩
  · intro h
    simp only [ConfigWrapper.getUidCookieName, ConfigWrapper.getUtCookieName,
      ConfigWrapper.cookiePfx, h, orDefaultStr]
    exact ⟨by decide, by decide⟩
  · intro h
    simp [ConfigWrapper.getCookieTtlSeconds, h, orDefaultInt, YEAR_IN_SECONDS, DAY_IN_SECONDS]
  · intro h
    simp [ConfigWrapper.getCookieRefreshSeconds, h, orDefaultInt, DAY_IN_SECONDS]
  · intro h
    simp [ConfigWrapper.getAtmVarName, h, orDefaultStr]
  · intro h
    simp only [ConfigWrapper.getUrl, h, orDefaultStr]
    split <;> rfl
  · intro h hext
    simp only [ConfigWrapper.getUrl, hext, h, orDefaultStr, if_true]
    rfl

/-- Claim C5: for every resolution call on a configuration object, and every
sequence of probe/provider outcomes in which the taken provider actually
settles (when the external path is taken its ready signal arrives — the
internal provider always settles), the caller's callback fires exactly
once. -/
theorem c5_callback_exactly_once (op : Option JSParams) (env : Env)
    (hterm : ConfigWrapper.isExternalMode ⟨eoinParams op⟩ = true →
      probeFails env = true → env.extSignal.isSome = true) :
    cbCount (runGetIdCallback (.obj op) env) = 1 := by
  cases hp : (atmGetUid env).2 with
  | resolvedUid v =>
    rw [runGetId_probeOk op env v hp]
    simp [cbCount_append, cbCount_finishCb, (atmGetUid_counts env).1]
  | rejected r =>
    have hf : probeFails env = true := by unfold probeFails; rw [hp]
    cases hm : ConfigWrapper.isExternalMode ⟨eoinParams op⟩ with
    | true =>
      rw [runGetId_external op env r hm hp]
      cases hs : env.extSignal with
      | some v =>
        simp [hs, cbCount_append, cbCount_finishCb, (atmGetUid_counts env).1,
          cbCount_inject, cbCount_inject_cons]
      | none =>
        have hsome := hterm hm hf
        rw [hs] at hsome
        simp at hsome
    | false =>
      rw [runGetId_internal op env r hm hp]
      cases hq : (internalProvider ⟨eoinParams op⟩ env).2 with
      | resolved v =>
        simp [hq, cbCount_append, cbCount_finishCb, (atmGetUid_counts env).1,
          (provider_cb_zero ⟨eoinParams op⟩ env).2]
      | rejected r2 =>
        simp [hq, cbCount_append, cbCount_cb_none, (atmGetUid_counts env).1,
          (provider_cb_zero ⟨eoinParams op⟩ env).2]
      | neverSettles => exact absurd hq (internal_settles ⟨eoinParams op⟩ env)

/-- Witness for C5 at an INTERNAL-mode configuration. -/
theorem c5_callback_exactly_once_witness :
    cbCount (runGetIdCallback
      (.obj (some ⟨some ("INTERNAL"), none, none, none, none, none, none⟩)) envC5) = 1 :=
  c5_callback_exactly_once (some ⟨some ("INTERNAL"), none, none, none, none, none, none⟩)
    envC5 (by decide)

/-- Claim C6: when the ready-state signal would arrive only at or after the
5000 ms deadline, the probe promise settles as a timeout rejection, the
resolution behaves exactly as if the signal never arrived (the late
settlement attempt hits an already-settled promise and is a no-op), and the
caller's callback never fires twice. -/
theorem c6_probe_timeout_late_ignored (cfg : RawConfig) (env : Env) (t : Nat)
    (hp : env.atmPresent = true) (hr : env.readyAt = some t) (hlate : 5000 ≤ t) :
    (atmGetUid env).2 = ProbeOutcome.rejected ("timeout") ∧
    runGetIdCallback cfg env = runGetIdCallback cfg { env with readyAt := none } ∧
    cbCount (runGetIdCallback cfg env) ≤ 1 := by
  have hrace : runRace env.readyAt 5000 = PromiseState.rejected := by
    rw [hr]
    simp only [runRace, raceEvents]
    rw [if_neg (by omega)]
    rfl
  have hatm : atmGetUid env = atmGetUid { env with readyAt := none } := by
    unfold atmGetUid
    rw [hrace]
    rfl
  refine ⟨?_, ?_, cb_le_one cfg env⟩
  · unfold atmGetUid
    rw [hrace]
    simp [hp]
  · unfold runGetIdCallback runInner
    rw [hatm]
    rfl

/-- Witness for C6 at a late-signal environment. -/
theorem c6_probe_timeout_late_ignored_witness :
    (atmGetUid envC6).2 = ProbeOutcome.rejected ("timeout") ∧
    runGetIdCallback (.obj none) envC6 =
      runGetIdCallback (.obj none) { envC6 with readyAt := none } ∧
    cbCount (runGetIdCallback (.obj none) envC6) ≤ 1 :=
  c6_probe_timeout_late_ignored (.obj none) envC6 7000 rfl rfl (by omega)

/-- The probe's command trace never delivers `getUid` through the
orchestrator's then-handler or a fallback provider. -/
theorem atm_not_in_finishCb (c : String) (v : JSPrim) :
    Event.atmCmd c ∉ finishCb v := by
  unfold finishCb
  split <;> simp

/-- Whenever the `getUid` command appears in a resolution trace, the
`getVersion` answer was a string. -/
theorem getUid_mem_version (cfg : RawConfig) (env : Env)
    (h : Event.atmCmd ("getUid") ∈ runGetIdCallback cfg env) :
    isStr env.atmVersion = true := by
  apply atmGetUid_feature_gate
  cases cfg with
  | nullish => simp [runGetIdCallback, runInner, ConfigWrapper.make] at h
  | obj op =>
    cases hp : (atmGetUid env).2 with
    | resolvedUid v =>
      rw [runGetId_probeOk op env v hp] at h
      rcases List.mem_append.mp h with h1 | h1
      · exact h1
      · exact absurd h1 (atm_not_in_finishCb _ _)
    | rejected r =>
      cases hm : ConfigWrapper.isExternalMode ⟨eoinParams op⟩ with
      | true =>
        rw [runGetId_external op env r hm hp] at h
        rcases List.mem_append.mp h with h1 | h1
        · rcases List.mem_append.mp h1 with h2 | h2
          · exact h2
          · simp at h2
        · cases hs : env.extSignal with
          | some v =>
            rw [hs] at h1
            exact absurd h1 (atm_not_in_finishCb _ _)
          | none =>
            rw [hs] at h1
            simp at h1
      | false =>
        rw [runGetId_internal op env r hm hp] at h
        rcases List.mem_append.mp h with h1 | h1
        · rcases List.mem_append.mp h1 with h2 | h2
          · exact h2
          · rcases internalProvider_fst_cases ⟨eoinParams op⟩ env with hc | hc | ⟨u, tld, _, hc⟩ <;>
              rw [hc] at h2 <;> simp at h2
        · cases hq : (internalProvider ⟨eoinParams op⟩ env).2 with
          | resolved v =>
            rw [hq] at h1
            exact absurd h1 (atm_not_in_finishCb _ _)
          | rejected r2 =>
            rw [hq] at h1
            simp at h1
          | neverSettles =>
            rw [hq] at h1
            simp at h1

/-- Claim C7: when the handle is present, becomes ready in time, and its
`getVersion` yields a non-string, the probe rejects with the unsupported
error and the `getUid` command is never sent; moreover, over every
configuration and environment, `getUid` is sent only when `getVersion`
yielded a string. -/
theorem c7_version_gate (cfg : RawConfig) (env : Env) (t : Nat)
    (hp : env.atmPresent = true) (hr : env.readyAt = some t) (ht : t < 5000)
    (hv : isStr env.atmVersion = false) :
    (atmGetUid env).2 = ProbeOutcome.rejected ("ATM getUid not supported") ∧
    Event.atmCmd ("getUid") ∉ runGetIdCallback cfg env ∧
    (∀ cfg2 env2, Event.atmCmd ("getUid") ∈ runGetIdCallback cfg2 env2 →
      isStr env2.atmVersion = true) := by
  have hrace : runRace env.readyAt 5000 = PromiseState.resolved (.str ("ready")) := by
    rw [hr]
    simp only [runRace, raceEvents]
    rw [if_pos ht]
    rfl
  refine ⟨?_, ?_, fun cfg2 env2 h => getUid_mem_version cfg2 env2 h⟩
  · unfold atmGetUid
    rw [hrace]
    simp [hp, hv]
  · intro h
    have hs := getUid_mem_version cfg env h
    rw [hv] at hs
    cases hs

/-- Witness for C7: the non-string version blocks `getUid`. -/
theorem c7_version_gate_witness :
    (atmGetUid envC7).2 = ProbeOutcome.rejected ("ATM getUid not supported") ∧
    Event.atmCmd ("getUid") ∉ runGetIdCallback (.obj none) envC7 :=
  ⟨(c7_version_gate (.obj none) envC7 100 rfl rfl (by omega) rfl).1,
   (c7_version_gate (.obj none) envC7 100 rfl rfl (by omega) rfl).2.1⟩

/-- Witness for the amended C4 at the all-absent params object. -/
theorem c4_defaults_witness :
    ConfigWrapper.make (RawConfig.obj none) = .ok ⟨JSParams.empty⟩ ∧
    ConfigWrapper.getUidCookieName ⟨JSParams.empty⟩ = "__jtuid" ∧
    ConfigWrapper.getUtCookieName ⟨JSParams.empty⟩ = "__jtut" ∧
    ConfigWrapper.getCookieTtlSeconds ⟨JSParams.empty⟩ = 63072000 ∧
    ConfigWrapper.getCookieRefreshSeconds ⟨JSParams.empty⟩ = 86400 ∧
    ConfigWrapper.getAtmVarName ⟨JSParams.empty⟩ = "__atm" ∧
    (ConfigWrapper.getUrl ⟨JSParams.empty⟩).host = "id.nsaudience.pl" ∧
    (ConfigWrapper.getUrl ⟨JSParams.empty⟩).search =
      some ("sourceId", "pbjs-just-id-module") := by
  have h := c4_defaults none
  exact ⟨h.1, (h.2.1 rfl).1, (h.2.1 rfl).2, h.2.2.1 rfl, h.2.2.2.1 rfl,
    h.2.2.2.2.1 rfl, h.2.2.2.2.2.1 rfl, h.2.2.2.2.2.2 rfl (by decide)⟩

/-- The external-mode URL string, reassociated. -/
theorem urlExternalRender (d p : String) :
    (("https://" ++ d) ++ ("/getId" ++ ".js")) ++ ((("?" ++ "sourceId") ++ "=") ++ p) =
      (("https://" ++ d) ++ "/getId.js?sourceId=") ++ p := by
  have h1 : ("/getId" ++ ".js" : String) = "/getId.js" := by decide
  have h2 : (("?" ++ "sourceId") ++ "=" : String) = "?sourceId=" := by decide
  rw [h1, h2, String.append_assoc, String.append_assoc, String.append_assoc]
  have h3 : ("/getId.js" ++ ("?sourceId=" ++ p) : String) = "/getId.js?sourceId=" ++ p := by
    rw [← String.append_assoc]
    have h4 : ("/getId.js" ++ "?sourceId=" : String) = "/getId.js?sourceId=" := by decide
    rw [h4]
  rw [h3, String.append_assoc]

/-- Claim C8: for every configuration whose resolved domain is a plain host
and whose resolved partner survives form-encoding unchanged, the rendered
URL is exactly https://<domain>/getId (no query) outside EXTERNAL mode, and
exactly https://<domain>/getId.js?sourceId=<partner> in EXTERNAL mode; the
resolved domain defaults to id.nsaudience.pl and the resolved partner to
pbjs-just-id-module. -/
theorem c8_url_shapes (op : Option JSParams)
    (_hd : hostPlain (orDefaultStr (eoinParams op).domain DEFAULT_DOMAIN) = true)
    (hp : formEncode (orDefaultStr (eoinParams op).partner DEFAULT_PARTNER) =
      orDefaultStr (eoinParams op).partner DEFAULT_PARTNER) :
    (ConfigWrapper.isExternalMode ⟨eoinParams op⟩ = false →
      (ConfigWrapper.getUrl ⟨eoinParams op⟩).render =
        "https://" ++ orDefaultStr (eoinParams op).domain DEFAULT_DOMAIN ++ "/getId") ∧
    (ConfigWrapper.isExternalMode ⟨eoinParams op⟩ = true →
      (ConfigWrapper.getUrl ⟨eoinParams op⟩).render =
        "https://" ++ orDefaultStr (eoinParams op).domain DEFAULT_DOMAIN ++
          "/getId.js?sourceId=" ++ orDefaultStr (eoinParams op).partner DEFAULT_PARTNER) := by
  constructor
  · intro hm
    simp only [ConfigWrapper.getUrl, hm, Bool.false_eq_true, if_false, UrlM.render]
    exact String.append_empty _
  · intro hm
    simp only [ConfigWrapper.getUrl, hm, if_true, UrlM.render, hp]
    rw [(by decide : formEncode ("sourceId") = "sourceId")]
    exact urlExternalRender _ _

/-- Witness for C8 at the all-default configuration. -/
theorem c8_url_shapes_witness :
    (ConfigWrapper.isExternalMode ⟨eoinParams none⟩ = false →
      (ConfigWrapper.getUrl ⟨eoinParams none⟩).render =
        "https://" ++ orDefaultStr (eoinParams none).domain DEFAULT_DOMAIN ++ "/getId") ∧
    (ConfigWrapper.isExternalMode ⟨eoinParams none⟩ = true →
      (ConfigWrapper.getUrl ⟨eoinParams none⟩).render =
        "https://" ++ orDefaultStr (eoinParams none).domain DEFAULT_DOMAIN ++
          "/getId.js?sourceId=" ++ orDefaultStr (eoinParams none).partner DEFAULT_PARTNER) :=
  c8_url_shapes none (by decide) (by decide)

/-- Claim C9: per resolution call the cache record is read at most once and
written at most once; every write carries a uid/tld pair that came from a
parsed id-server response together with the captured timestamp; and both the
EXTERNAL path and a successful-probe path leave the store untouched. -/
theorem c9_cache_frame (op : Option JSParams) (env : Env) :
    readCount (runGetIdCallback (.obj op) env) ≤ 1 ∧
    writeCount (runGetIdCallback (.obj op) env) ≤ 1 ∧
    (∀ u ts tld, Event.cacheWrite u ts tld ∈ runGetIdCallback (.obj op) env →
      env.net = NetResult.success (.parsed u tld) ∧ ts = env.now) ∧
    (ConfigWrapper.isExternalMode ⟨eoinParams op⟩ = true →
      readCount (runGetIdCallback (.obj op) env) = 0 ∧
      writeCount (runGetIdCallback (.obj op) env) = 0) ∧
    (probeFails env = false →
      readCount (runGetIdCallback (.obj op) env) = 0 ∧
      writeCount (runGetIdCallback (.obj op) env) = 0) := by
  cases hp : (atmGetUid env).2 with
  | resolvedUid v =>
    have ht := runGetId_probeOk op env v hp
    rw [ht]
    have h01 : readCount ((atmGetUid env).1 ++ finishCb v) = 0 := by
      simp [readCount_append, (atmGetUid_counts env).2.2.1, readCount_finishCb]
    have h02 : writeCount ((atmGetUid env).1 ++ finishCb v) = 0 := by
      simp [writeCount_append, (atmGetUid_counts env).2.2.2, writeCount_finishCb]
    refine ⟨by omega, by omega, ?_, fun _ => ⟨h01, h02⟩, fun _ => ⟨h01, h02⟩⟩
    intro u ts tld hmem
    exact absurd (write_mem_le u ts tld _ hmem) (by omega)
  | rejected r =>
    have hpf : probeFails env = true := by unfold probeFails; rw [hp]
    cases hm : ConfigWrapper.isExternalMode ⟨eoinParams op⟩ with
    | true =>
      have ht := runGetId_external op env r hm hp
      rw [ht]
      have h01 : readCount ((atmGetUid env).1 ++
          [Event.scriptInject ((ConfigWrapper.getUrl ⟨eoinParams op⟩).render)] ++
          (match env.extSignal with
           | some v => finishCb v
           | none => [])) = 0 := by
        cases hs : env.extSignal <;>
          simp [hs, readCount_append, (atmGetUid_counts env).2.2.1, readCount_finishCb,
            readCount_inject, readCount_nil, readCount_inject_cons]
      have h02 : writeCount ((atmGetUid env).1 ++
          [Event.scriptInject ((ConfigWrapper.getUrl ⟨eoinParams op⟩).render)] ++
          (match env.extSignal with
           | some v => finishCb v
           | none => [])) = 0 := by
        cases hs : env.extSignal <;>
          simp [hs, writeCount_append, (atmGetUid_counts env).2.2.2, writeCount_finishCb,
            writeCount_inject, writeCount_nil, writeCount_inject_cons]
      refine ⟨by omega, by omega, ?_, fun _ => ⟨h01, h02⟩,
        fun h => absurd hpf (by simp [h])⟩
      intro u ts tld hmem
      exact absurd (write_mem_le u ts tld _ hmem) (by omega)
    | false =>
      have ht := runGetId_internal op env r hm hp
      rw [ht]
      have htail1 : readCount (match (internalProvider ⟨eoinParams op⟩ env).2 with
          | .resolved v => finishCb v
          | .rejected _ => [Event.cbCall none]
          | .neverSettles => []) = 0 := by
        cases hq : (internalProvider ⟨eoinParams op⟩ env).2 <;>
          simp [hq, readCount_finishCb, readCount_cb_none, readCount_nil]
      have htail2 : writeCount (match (internalProvider ⟨eoinParams op⟩ env).2 with
          | .resolved v => finishCb v
          | .rejected _ => [Event.cbCall none]
          | .neverSettles => []) = 0 := by
        cases hq : (internalProvider ⟨eoinParams op⟩ env).2 <;>
          simp [hq, writeCount_finishCb, writeCount_cb_none, writeCount_nil]
      rcases internalProvider_fst_cases ⟨eoinParams op⟩ env with hc | hc | ⟨u0, tld0, hnet, hc⟩ <;>
        rw [hc]
      · have h01 : readCount [Event.cacheRead env.cookieUid env.cookieUt] = 1 := rfl
        have h02 : writeCount [Event.cacheRead env.cookieUid env.cookieUt] = 0 := rfl
        have hr : readCount ((atmGetUid env).1 ++ [Event.cacheRead env.cookieUid env.cookieUt] ++
            (match (internalProvider ⟨eoinParams op⟩ env).2 with
             | .resolved v => finishCb v
             | .rejected _ => [Event.cbCall none]
             | .neverSettles => [])) = 1 := by
          simp only [readCount_append, (atmGetUid_counts env).2.2.1, h01, htail1]
        have hw : writeCount ((atmGetUid env).1 ++ [Event.cacheRead env.cookieUid env.cookieUt] ++
            (match (internalProvider ⟨eoinParams op⟩ env).2 with
             | .resolved v => finishCb v
             | .rejected _ => [Event.cbCall none]
             | .neverSettles => [])) = 0 := by
          simp only [writeCount_append, (atmGetUid_counts env).2.2.2, h02, htail2]
        refine ⟨by omega, by omega, ?_, fun h => absurd h (by simp [hm]),
          fun h => absurd hpf (by simp [h])⟩
        intro u ts tld hmem
        exact absurd (write_mem_le u ts tld _ hmem) (by omega)
      · have h01 : readCount [Event.cacheRead env.cookieUid env.cookieUt,
            Event.netPost ((ConfigWrapper.getUrl ⟨eoinParams op⟩).render)] = 1 := rfl
        have h02 : writeCount [Event.cacheRead env.cookieUid env.cookieUt,
            Event.netPost ((ConfigWrapper.getUrl ⟨eoinParams op⟩).render)] = 0 := rfl
        have hr : readCount ((atmGetUid env).1 ++
            [Event.cacheRead env.cookieUid env.cookieUt,
             Event.netPost ((ConfigWrapper.getUrl ⟨eoinParams op⟩).render)] ++
            (match (internalProvider ⟨eoinParams op⟩ env).2 with
             | .resolved v => finishCb v
             | .rejected _ => [Event.cbCall none]
             | .neverSettles => [])) = 1 := by
          simp only [readCount_append, (atmGetUid_counts env).2.2.1, h01, htail1]
        have hw : writeCount ((atmGetUid env).1 ++
            [Event.cacheRead env.cookieUid env.cookieUt,
             Event.netPost ((ConfigWrapper.getUrl ⟨eoinParams op⟩).render)] ++
            (match (internalProvider ⟨eoinParams op⟩ env).2 with
             | .resolved v => finishCb v
             | .rejected _ => [Event.cbCall none]
             | .neverSettles => [])) = 0 := by
          simp only [writeCount_append, (atmGetUid_counts env).2.2.2, h02, htail2]
        refine ⟨by omega, by omega, ?_, fun h => absurd h (by simp [hm]),
          fun h => absurd hpf (by simp [h])⟩
        intro u ts tld hmem
        exact absurd (write_mem_le u ts tld _ hmem) (by omega)
      · have h01 : readCount [Event.cacheRead env.cookieUid env.cookieUt,
            Event.netPost ((ConfigWrapper.getUrl ⟨eoinParams op⟩).render),
            Event.cacheWrite u0 env.now tld0] = 1 := rfl
        have h02 : writeCount [Event.cacheRead env.cookieUid env.cookieUt,
            Event.netPost ((ConfigWrapper.getUrl ⟨eoinParams op⟩).render),
            Event.cacheWrite u0 env.now tld0] = 1 := rfl
        have hr : readCount ((atmGetUid env).1 ++
            [Event.cacheRead env.cookieUid env.cookieUt,
             Event.netPost ((ConfigWrapper.getUrl ⟨eoinParams op⟩).render),
             Event.cacheWrite u0 env.now tld0] ++
            (match (internalProvider ⟨eoinParams op⟩ env).2 with
             | .resolved v => finishCb v
             | .rejected _ => [Event.cbCall none]
             | .neverSettles => [])) = 1 := by
          simp only [readCount_append, (atmGetUid_counts env).2.2.1, h01, htail1]
        have hw : writeCount ((atmGetUid env).1 ++
            [Event.cacheRead env.cookieUid env.cookieUt,
             Event.netPost ((ConfigWrapper.getUrl ⟨eoinParams op⟩).render),
             Event.cacheWrite u0 env.now tld0] ++
            (match (internalProvider ⟨eoinParams op⟩ env).2 with
             | .resolved v => finishCb v
             | .rejected _ => [Event.cbCall none]
             | .neverSettles => [])) = 1 := by
          simp only [writeCount_append, (atmGetUid_counts env).2.2.2, h02, htail2]
        refine ⟨by omega, by omega, ?_, fun h => absurd h (by simp [hm]),
          fun h => absurd hpf (by simp [h])⟩
        intro u ts tld hmem
        rcases List.mem_append.mp hmem with h1 | h1
        · rcases List.mem_append.mp h1 with h2 | h2
          · rcases atmGetUid_fst_cases env with hcc | hcc | hcc | hcc <;>
              rw [hcc] at h2 <;> simp at h2
          · simp only [List.mem_cons, List.not_mem_nil, or_false] at h2
            rcases h2 with h3 | h3 | h3
            · simp at h3
            · simp at h3
            · injection h3 with h4 h5 h6
              subst h4
              subst h5
              subst h6
              exact ⟨hnet, rfl⟩
        · have hz : writeCount (match (internalProvider ⟨eoinParams op⟩ env).2 with
              | .resolved v => finishCb v
              | .rejected _ => [Event.cbCall none]
              | .neverSettles => []) = 0 := htail2
          exact absurd (write_mem_le u ts tld _ h1) (by omega)

/-- Claim C10: when the response body parses but its uid is empty (or
absent/non-string), the internal provider still writes both cookies with
that uid value before the orchestrator's emptiness check makes the callback
fire with no argument: the cache write and the externally visible failure
outcome diverge. -/
theorem c10_empty_uid_still_written (op : Option JSParams) (env : Env)
    (uid tld : JSPrim)
    (hm : ConfigWrapper.isExternalMode ⟨eoinParams op⟩ = false)
    (hf : probeFails env = true)
    (hstale : (cookieTruthy env.cookieUid &&
      jsLt (.num (.int env.now))
        (jsAdd (cookieToJS env.cookieUt)
          (.num (.int (ConfigWrapper.getCookieRefreshSeconds ⟨eoinParams op⟩ * 1000))))) = false)
    (hnet : env.net = NetResult.success (.parsed uid tld))
    (hempty : isEmptyStr uid = true) :
    runGetIdCallback (.obj op) env =
      (atmGetUid env).1 ++
        [Event.cacheRead env.cookieUid env.cookieUt,
         Event.netPost ((ConfigWrapper.getUrl ⟨eoinParams op⟩).render),
         Event.cacheWrite uid env.now tld,
         Event.cbCall none] ∧
    Event.cacheWrite uid env.now tld ∈ runGetIdCallback (.obj op) env ∧
    cbCount (runGetIdCallback (.obj op) env) = 1 := by
  obtain ⟨r, hr⟩ := probeFails_rejected env hf
  have hprov : internalProvider ⟨eoinParams op⟩ env =
      ([Event.cacheRead env.cookieUid env.cookieUt,
        Event.netPost ((ConfigWrapper.getUrl ⟨eoinParams op⟩).render),
        Event.cacheWrite uid env.now tld], .resolved uid) := by
    simp only [internalProvider, hstale, Bool.false_eq_true, if_false, hnet]
    rfl
  have hfin : finishCb uid = [Event.cbCall none] := by
    simp [finishCb, hempty]
  have ht := runGetId_internal op env r hm hr
  rw [hprov] at ht
  simp only [hfin] at ht
  have htrace : runGetIdCallback (.obj op) env =
      (atmGetUid env).1 ++
        [Event.cacheRead env.cookieUid env.cookieUt,
         Event.netPost ((ConfigWrapper.getUrl ⟨eoinParams op⟩).render),
         Event.cacheWrite uid env.now tld,
         Event.cbCall none] := by
    rw [ht]
    simp
  refine ⟨htrace, ?_, ?_⟩
  · rw [htrace]
    simp
  · rw [htrace]
    simp only [cbCount_append, (atmGetUid_counts env).1]
    rfl

/-- Witness for C10: an empty-string uid in a parsed response is written to
both cookies and the callback fires with no argument. -/
theorem c10_empty_uid_still_written_witness :
    runGetIdCallback (.obj opC10) envC10 =
      (atmGetUid envC10).1 ++
        [Event.cacheRead envC10.cookieUid envC10.cookieUt,
         Event.netPost ((ConfigWrapper.getUrl ⟨eoinParams opC10⟩).render),
         Event.cacheWrite (.str ("")) envC10.now (.str ("example.com")),
         Event.cbCall none] ∧
    Event.cacheWrite (.str ("")) envC10.now (.str ("example.com")) ∈
      runGetIdCallback (.obj opC10) envC10 ∧
    cbCount (runGetIdCallback (.obj opC10) envC10) = 1 :=
  c10_empty_uid_still_written opC10 envC10 (.str ("")) (.str ("example.com"))
    (by decide) (by decide) (by decide) rfl rfl

end JustId
